import Mathlib

/-!
Shallow embedding of `src/validator/main.py` (the `FinancialTone` validator).

The external classifier (`self._pipe`, a HuggingFace text-classification
pipeline) is modelled as a function from the input text to a list of
predictions, each a label together with a confidence score.  Python `float`
values (scores and thresholds) are modelled as rationals.  The exceptions the
Python code can raise (the two `assert` statements, the `RuntimeError` on an
empty classifier result, and the `ValueError` in `__init__`) are modelled with
an explicit error type via `Except`.
-/

namespace FinancialToneValidator

/-- One classifier prediction: `result[0]["label"]` and `result[0]["score"]`. -/
structure Prediction where
  label : String
  score : ℚ
  deriving DecidableEq

/-- The external classifier `self._pipe`: text in, list of predictions out. -/
abbrev Pipe := String → List Prediction

/-- The exceptions raised by `src/validator/main.py`. -/
inductive VError where
  /-- The `assert financial_tone in ["positive", "negative", "neutral"]`
  in `_unpack_metadata` (line 90). -/
  | invalidConfiguration
  /-- The `RuntimeError("Failed to get model prediction.")` raised when the
  classifier returns an empty result (lines 75–76). -/
  | upstreamFailure
  /-- The `assert pred_label in ["Positive", "Negative", "Neutral"]`
  in `has_correct_financial_tone` (line 79). -/
  | contractViolation
  /-- The `ValueError` raised in `__init__` when `pipeline is None`
  (lines 52–57). -/
  | missingDependency
  deriving DecidableEq

/-- The caller's metadata mapping, restricted to the two keys the validator
reads (`financial_tone` and `financial_tone_threshold`); `none` models an
absent key. -/
structure Metadata where
  financial_tone : Option String
  financial_tone_threshold : Option ℚ
  deriving DecidableEq

/-- `DEFAULT_THRESHOLD = 0.8` (line 45). -/
def DEFAULT_THRESHOLD : ℚ := 0.8

/-- `DEFAULT_TONE = "neutral"` (line 46). -/
def DEFAULT_TONE : String := "neutral"

/-- The result type of `validate`: `PassResult()` carries nothing,
`FailResult(metadata=..., error_message=...)` carries the metadata mapping and
a message. -/
inductive ValidationResult where
  | PassResult
  | FailResult (metadata : Metadata) (error_message : String)
  deriving DecidableEq

/-- Python `str.lower()` as applied to the predicted label
(`pred_label.lower()`, line 83): each character lowercased.  Stated over the
character list (the behaviour of `String.toLower`) so that concrete instances
evaluate. -/
def lower (s : String) : String := ⟨s.data.map Char.toLower⟩

/-- `has_correct_financial_tone` (lines 63–85): calls the classifier, raises
on an empty result, asserts the predicted label is one of
`["Positive", "Negative", "Neutral"]`, and returns `True` iff
`pred_label.lower() == financial_tone and confidence > threshold`. -/
def has_correct_financial_tone (pipe : Pipe) (value : String)
    (financial_tone : String) (threshold : ℚ) : Except VError Bool :=
  match pipe value with
  | [] => .error .upstreamFailure
  | r :: _ =>
    let pred_label := r.label
    let confidence := r.score
    if pred_label ∈ ["Positive", "Negative", "Neutral"] then
      if lower pred_label = financial_tone ∧ confidence > threshold then
        .ok true
      else
        .ok false
    else
      .error .contractViolation

/-- `_unpack_metadata` (lines 87–97): reads `financial_tone` (default
`DEFAULT_TONE`) and `financial_tone_threshold` (default `DEFAULT_THRESHOLD`)
from the metadata, asserting the tone is one of
`["positive", "negative", "neutral"]`. -/
def _unpack_metadata (metadata : Metadata) : Except VError (String × ℚ) :=
  let financial_tone := metadata.financial_tone.getD DEFAULT_TONE
  if financial_tone ∈ ["positive", "negative", "neutral"] then
    .ok (financial_tone, metadata.financial_tone_threshold.getD DEFAULT_THRESHOLD)
  else
    .error .invalidConfiguration

/-- `validate` (lines 99–107): unpack the metadata, call
`has_correct_financial_tone`, and return `FailResult(metadata=metadata,
error_message=f"The generated text didn't have tone {financial_tone}.")` on
`False`, `PassResult()` on `True`.  Exception propagation is the `.error`
match arms. -/
def validate (pipe : Pipe) (value : String) (metadata : Metadata) :
    Except VError ValidationResult :=
  match _unpack_metadata metadata with
  | .error e => .error e
  | .ok (financial_tone, threshold) =>
    match has_correct_financial_tone pipe value financial_tone threshold with
    | .error e => .error e
    | .ok ok =>
      if !ok then
        .ok (.FailResult metadata
          ("The generated text didn't have tone " ++ financial_tone ++ "."))
      else
        .ok .PassResult

/-- The decision path of `validate` after `_unpack_metadata` has run
(lines 102–107), with the unpacked tone and threshold as explicit
parameters.  Used to state that absent metadata keys behave exactly like the
explicit default parameter values. -/
def validate_with (pipe : Pipe) (value : String) (metadata : Metadata)
    (financial_tone : String) (threshold : ℚ) : Except VError ValidationResult :=
  match has_correct_financial_tone pipe value financial_tone threshold with
  | .error e => .error e
  | .ok ok =>
    if !ok then
      .ok (.FailResult metadata
        ("The generated text didn't have tone " ++ financial_tone ++ "."))
    else
      .ok .PassResult

/-- The validator instance after `__init__`: it holds only the constructed
pipeline (`self._pipe`, line 60). -/
structure FinancialTone where
  _pipe : Pipe

/-- `__init__` (lines 48–61): `pipeline` is the `transformers.pipeline`
factory, `none` when the import failed (lines 11–14); construction raises
`ValueError` when it is absent, and otherwise builds the classifier once and
stores it. -/
def FinancialTone.init (pipeline : Option (Unit → Pipe)) :
    Except VError FinancialTone :=
  match pipeline with
  | none => .error .missingDependency
  | some p => .ok ⟨p ()⟩

/-- The `validate` method as a state transformer on the validator instance:
the body of `validate` only reads `self._pipe` and assigns nothing to `self`,
so the instance a later call observes is returned unchanged alongside the
result. -/
def FinancialTone.validateRun (self : FinancialTone) (value : String)
    (metadata : Metadata) : (Except VError ValidationResult) × FinancialTone :=
  (validate self._pipe value metadata, self)

/-! ### Concrete classifiers and metadata used by the witnesses -/

/-- A classifier that always answers `Neutral` with confidence `1`. -/
def pipeNeutral1 : Pipe := fun _ => [⟨"Neutral", 1⟩]

/-- A classifier that always answers `Positive` with confidence `1`. -/
def pipePositive1 : Pipe := fun _ => [⟨"Positive", 1⟩]

/-- A classifier that always returns an empty result list. -/
def pipeEmpty : Pipe := fun _ => []

/-- A classifier that answers with a label outside the three-value contract. -/
def pipeBullish : Pipe := fun _ => [⟨"Bullish", 1⟩]

/-! ### Claims -/

/-- **C1.** For every text, expected tone in the enumerated set (here: every
metadata that unpacks successfully), threshold `thr`, and classifier
prediction `(label, conf)` with `label` in the classifier's label set,
`validate` returns `PassResult` iff `lower label = tone ∧ conf > thr`; in
particular `conf = thr` yields the `FailResult` (the comparison is strict). -/
theorem validate_pass_iff_strict (pipe : Pipe) (value : String)
    (metadata : Metadata) (tone : String) (thr : ℚ) (label : String) (conf : ℚ)
    (rest : List Prediction)
    (hmeta : _unpack_metadata metadata = .ok (tone, thr))
    (hpipe : pipe value = ⟨label, conf⟩ :: rest)
    (hlabel : label ∈ ["Positive", "Negative", "Neutral"]) :
    (validate pipe value metadata = .ok .PassResult ↔
      (lower label = tone ∧ conf > thr)) ∧
    (conf = thr → validate pipe value metadata =
      .ok (.FailResult metadata
        ("The generated text didn't have tone " ++ tone ++ "."))) := by
  by_cases hc : lower label = tone ∧ conf > thr
  · have hv : validate pipe value metadata = .ok .PassResult := by
      simp [validate, has_correct_financial_tone, hmeta, hpipe, hlabel, hc]
    refine ⟨by simp [hv, hc], fun he => ?_⟩
    rw [he] at hc
    exact absurd hc.2 (lt_irrefl thr)
  · have hv : validate pipe value metadata =
        .ok (.FailResult metadata
          ("The generated text didn't have tone " ++ tone ++ ".")) := by
      simp [validate, has_correct_financial_tone, hmeta, hpipe, hlabel, hc]
    refine ⟨by rw [hv]; simp [hc], fun _ => hv⟩

/-- Witness for C1 at a concrete input: prediction `("Neutral", 1)`, expected
tone `"neutral"`, threshold `1`: confidence equal to the threshold fails. -/
theorem validate_pass_iff_strict_witness :
    (validate pipeNeutral1 "x" ⟨some "neutral", some 1⟩ = .ok .PassResult ↔
      (lower "Neutral" = "neutral" ∧ (1 : ℚ) > 1)) ∧
    ((1 : ℚ) = 1 → validate pipeNeutral1 "x" ⟨some "neutral", some 1⟩ =
      .ok (.FailResult ⟨some "neutral", some 1⟩
        ("The generated text didn't have tone " ++ "neutral" ++ "."))) :=
  validate_pass_iff_strict pipeNeutral1 "x" ⟨some "neutral", some 1⟩
    "neutral" 1 "Neutral" 1 [] rfl rfl (by decide)

/-- **C2.** A `financial_tone` value outside the enumerated set makes
`validate` fail with the `InvalidConfiguration` error, for every classifier
(so before, and independent of, any classifier call), every text, and every
threshold entry; the result is an error, not a `PassResult` or `FailResult`. -/
theorem invalid_tone_rejected (pipe : Pipe) (value : String)
    (metadata : Metadata) (tone : String)
    (htone : metadata.financial_tone = some tone)
    (hnot : tone ∉ ["positive", "negative", "neutral"]) :
    validate pipe value metadata = .error .invalidConfiguration := by
  simp [validate, _unpack_metadata, htone, hnot]

/-- Witness for C2 at tone `"bullish"`. -/
theorem invalid_tone_rejected_witness :
    validate pipeNeutral1 "x" ⟨some "bullish", some 1⟩ =
      .error .invalidConfiguration :=
  invalid_tone_rejected pipeNeutral1 "x" ⟨some "bullish", some 1⟩ "bullish"
    rfl (by decide)

/-- **C3.** For every text and every metadata that unpacks successfully, an
empty classifier result makes `validate` fail with the `UpstreamFailure`
error: no `PassResult` or `FailResult` is returned. -/
theorem empty_result_upstream_failure (pipe : Pipe) (value : String)
    (metadata : Metadata) (tone : String) (thr : ℚ)
    (hmeta : _unpack_metadata metadata = .ok (tone, thr))
    (hpipe : pipe value = []) :
    validate pipe value metadata = .error .upstreamFailure := by
  simp [validate, has_correct_financial_tone, hmeta, hpipe]

/-- Witness for C3: the always-empty classifier with empty metadata. -/
theorem empty_result_upstream_failure_witness :
    validate pipeEmpty "x" ⟨none, none⟩ = .error .upstreamFailure :=
  empty_result_upstream_failure pipeEmpty "x" ⟨none, none⟩
    "neutral" DEFAULT_THRESHOLD rfl rfl

/-- **C4.** A predicted label outside `["Positive", "Negative", "Neutral"]`
makes `validate` raise the `ContractViolation` error (the source's assertion
at line 79); in particular it never returns `PassResult`. -/
theorem bad_label_never_passes (pipe : Pipe) (value : String)
    (metadata : Metadata) (tone : String) (thr : ℚ) (label : String) (conf : ℚ)
    (rest : List Prediction)
    (hmeta : _unpack_metadata metadata = .ok (tone, thr))
    (hpipe : pipe value = ⟨label, conf⟩ :: rest)
    (hlabel : label ∉ ["Positive", "Negative", "Neutral"]) :
    validate pipe value metadata = .error .contractViolation ∧
    validate pipe value metadata ≠ .ok .PassResult := by
  have hv : validate pipe value metadata = .error .contractViolation := by
    simp [validate, has_correct_financial_tone, hmeta, hpipe, hlabel]
  exact ⟨hv, by rw [hv]; simp⟩

/-- Witness for C4 at label `"Bullish"`. -/
theorem bad_label_never_passes_witness :
    validate pipeBullish "x" ⟨none, none⟩ = .error .contractViolation ∧
    validate pipeBullish "x" ⟨none, none⟩ ≠ .ok .PassResult :=
  bad_label_never_passes pipeBullish "x" ⟨none, none⟩
    "neutral" DEFAULT_THRESHOLD "Bullish" 1 [] rfl rfl (by decide)

/-- The unpacked tone is the `financial_tone` entry with default
`DEFAULT_TONE`: read off `_unpack_metadata`'s success branch. -/
theorem _unpack_metadata_ok_tone (m : Metadata) (tone : String) (thr : ℚ)
    (h : _unpack_metadata m = .ok (tone, thr)) :
    tone = m.financial_tone.getD DEFAULT_TONE := by
  simp only [_unpack_metadata] at h
  split at h
  · simp only [Except.ok.injEq, Prod.mk.injEq] at h
    exact h.1.symm
  · simp at h

/-- **C5.** Whenever `validate` returns a `FailResult`, its message is
exactly `"The generated text didn't have tone {expectedTone}."` with the
expected tone (the `financial_tone` entry, default `"neutral"`) substituted;
no other data (predicted label, confidence) appears in it. -/
theorem fail_message_format (pipe : Pipe) (value : String)
    (metadata md : Metadata) (msg : String)
    (hfail : validate pipe value metadata = .ok (.FailResult md msg)) :
    msg = "The generated text didn't have tone " ++
      metadata.financial_tone.getD DEFAULT_TONE ++ "." := by
  rcases hu : _unpack_metadata metadata with e | ⟨tone, thr⟩
  · simp [validate, hu] at hfail
  · have htone := _unpack_metadata_ok_tone metadata tone thr hu
    rcases hp : pipe value with _ | ⟨r, rest⟩
    · simp [validate, has_correct_financial_tone, hu, hp] at hfail
    · by_cases hl : r.label ∈ ["Positive", "Negative", "Neutral"]
      · by_cases hc : lower r.label = tone ∧ r.score > thr
        · simp [validate, has_correct_financial_tone, hu, hp, hl, hc] at hfail
        · simp [validate, has_correct_financial_tone, hu, hp, hl, hc] at hfail
          rw [← hfail.2, ← htone]
      · simp [validate, has_correct_financial_tone, hu, hp, hl] at hfail

/-- Witness for C5: a `Positive` prediction against expected tone
`"neutral"` fails with the exact message. -/
theorem fail_message_format_witness :
    "The generated text didn't have tone " ++ "neutral" ++ "." =
      "The generated text didn't have tone " ++
        (Metadata.mk (some "neutral") (some 0)).financial_tone.getD
          DEFAULT_TONE ++ "." :=
  fail_message_format pipePositive1 "x" ⟨some "neutral", some 0⟩
    ⟨some "neutral", some 0⟩
    ("The generated text didn't have tone " ++ "neutral" ++ ".") rfl

/-- **C6.** A metadata mapping with neither the `financial_tone` nor the
`financial_tone_threshold` key behaves exactly as the decision path with
the explicit parameter values `"neutral"` and `0.8`, for every classifier
and every text. -/
theorem empty_metadata_defaults (pipe : Pipe) (value : String) :
    validate pipe value ⟨none, none⟩ =
      validate_with pipe value ⟨none, none⟩ "neutral" (0.8 : ℚ) := rfl

/-- **C7.** With the classifier a fixed function of the text, the `validate`
method is deterministic and stateless: a call leaves the instance unchanged,
and a second call with identical inputs yields the identical outcome. -/
theorem validate_deterministic_stateless (self : FinancialTone)
    (value : String) (metadata : Metadata) :
    (self.validateRun value metadata).2 = self ∧
    ((self.validateRun value metadata).2.validateRun value metadata).1 =
      (self.validateRun value metadata).1 :=
  ⟨rfl, rfl⟩

/-- `_unpack_metadata` raises only `InvalidConfiguration`. -/
theorem _unpack_metadata_error_eq (m : Metadata) (e : VError)
    (h : _unpack_metadata m = .error e) : e = .invalidConfiguration := by
  simp only [_unpack_metadata] at h
  split at h
  · simp at h
  · simp only [Except.error.injEq] at h
    exact h.symm

/-- **C8.** If the classification library is unavailable (the `pipeline`
factory is `None`), construction fails with the `MissingDependency` error;
with the library available construction succeeds; and no `validate` call ever
produces that error — the failure belongs to construction time, not to the
first `validate` call. -/
theorem missing_pipeline_fails_at_construction :
    FinancialTone.init none = .error .missingDependency ∧
    (∀ factory : Unit → Pipe, ∃ v, FinancialTone.init (some factory) = .ok v) ∧
    (∀ (pipe : Pipe) (value : String) (metadata : Metadata),
      validate pipe value metadata ≠ .error .missingDependency) := by
  refine ⟨rfl, fun factory => ⟨⟨factory ()⟩, rfl⟩, ?_⟩
  intro pipe value metadata h
  rcases hu : _unpack_metadata metadata with e | ⟨tone, thr⟩
  · have he := _unpack_metadata_error_eq metadata e hu
    rw [he] at hu
    simp [validate, hu] at h
  · rcases hp : pipe value with _ | ⟨r, rest⟩
    · simp [validate, has_correct_financial_tone, hu, hp] at h
    · by_cases hl : r.label ∈ ["Positive", "Negative", "Neutral"]
      · by_cases hc : lower r.label = tone ∧ r.score > thr <;>
          simp [validate, has_correct_financial_tone, hu, hp, hl, hc] at h
      · simp [validate, has_correct_financial_tone, hu, hp, hl] at h

/-- **C9.** When `validate` returns an outcome, a `PassResult` carries no
metadata and a `FailResult` carries exactly the metadata mapping the caller
passed in; the embedding passes the caller's mapping through unchanged (the
source never writes to it). -/
theorem metadata_passed_through (pipe : Pipe) (value : String)
    (metadata : Metadata) (r : ValidationResult)
    (hok : validate pipe value metadata = .ok r) :
    r = .PassResult ∨ ∃ msg, r = .FailResult metadata msg := by
  rcases hu : _unpack_metadata metadata with e | ⟨tone, thr⟩
  · simp [validate, hu] at hok
  · rcases hp : pipe value with _ | ⟨p, rest⟩
    · simp [validate, has_correct_financial_tone, hu, hp] at hok
    · by_cases hl : p.label ∈ ["Positive", "Negative", "Neutral"]
      · by_cases hc : lower p.label = tone ∧ p.score > thr
        · simp [validate, has_correct_financial_tone, hu, hp, hl, hc] at hok
          exact Or.inl hok.symm
        · simp [validate, has_correct_financial_tone, hu, hp, hl, hc] at hok
          exact Or.inr ⟨_, hok.symm⟩
      · simp [validate, has_correct_financial_tone, hu, hp, hl] at hok

/-- Witness for C9: a failing call returns the caller's mapping inside the
`FailResult`. -/
theorem metadata_passed_through_witness :
    (ValidationResult.FailResult ⟨some "neutral", some 0⟩
        ("The generated text didn't have tone " ++ "neutral" ++ ".")) =
      .PassResult ∨
    ∃ msg, (ValidationResult.FailResult ⟨some "neutral", some 0⟩
        ("The generated text didn't have tone " ++ "neutral" ++ ".")) =
      .FailResult ⟨some "neutral", some 0⟩ msg :=
  metadata_passed_through pipePositive1 "x" ⟨some "neutral", some 0⟩
    (.FailResult ⟨some "neutral", some 0⟩
      ("The generated text didn't have tone " ++ "neutral" ++ ".")) rfl

/-- **C10.** The threshold entry is taken as-is (only coerced to a number,
never range-checked): with a threshold of at least `1` in the metadata and a
prediction whose confidence lies in `[0, 1]` (and whose label satisfies the
classifier contract), `validate` returns the `FailResult`, whatever the
predicted label. -/
theorem threshold_ge_one_always_fails (pipe : Pipe) (value : String)
    (metadata : Metadata) (tone : String) (thr : ℚ) (label : String) (conf : ℚ)
    (rest : List Prediction)
    (hmeta : _unpack_metadata metadata = .ok (tone, thr))
    (hthr : metadata.financial_tone_threshold = some thr)
    (h1 : 1 ≤ thr)
    (hpipe : pipe value = ⟨label, conf⟩ :: rest)
    (hlabel : label ∈ ["Positive", "Negative", "Neutral"])
    (hc0 : 0 ≤ conf) (hc1 : conf ≤ 1) :
    validate pipe value metadata =
      .ok (.FailResult metadata
        ("The generated text didn't have tone " ++ tone ++ ".")) := by
  have hng : ¬ (lower label = tone ∧ conf > thr) := by
    rintro ⟨-, hgt⟩
    exact absurd hgt (not_lt.mpr (hc1.trans h1))
  simp [validate, has_correct_financial_tone, hmeta, hpipe, hlabel, hng]

/-- Witness for C10: threshold `2`, a matching `Neutral` prediction with
confidence `1` still fails. -/
theorem threshold_ge_one_always_fails_witness :
    validate pipeNeutral1 "x" ⟨none, some 2⟩ =
      .ok (.FailResult ⟨none, some 2⟩
        ("The generated text didn't have tone " ++ "neutral" ++ ".")) :=
  threshold_ge_one_always_fails pipeNeutral1 "x" ⟨none, some 2⟩
    "neutral" 2 "Neutral" 1 [] rfl rfl (by decide) rfl (by decide)
    (by decide) (by decide)

end FinancialToneValidator
